import Mathlib

/-
Shallow embedding of the transaction core of the ice-colder vending-machine
controller:

 * the core FSM and escrow ledger, `src/controller/vmc_core.py` (class `VMC`,
   table `TRANSITIONS`);
 * the full controller FSM, `src/controller/vmc.py` (class `VMC`);
 * the event store, `src/controller/event_store.py` (class `EventStore`) and
   the `atomic_write` helper of `src/config/state_model.py`;
 * the virtual payment race, `src/services/virtual_payment_fsm.py`
   (class `VirtualPaymentFSM`).

Money amounts are modelled in exact integer arithmetic; the Python source
stores them as floats, but every operation the theorems touch is an exact
addition, subtraction or comparison, so the additive behaviour is identical.
Fallible Python code (raised exceptions) is modelled with `Except`.
-/

namespace IceColder

/-- A Python exception surfaced to the caller of an embedded operation. -/
inductive PyExn
  | attributeError   -- AttributeError (missing attribute / method on None)
  | machineError     -- transitions.core.MachineError (invalid trigger)
  | valueError       -- ValueError (asyncio.wait on an empty task set)
  | validationError  -- pydantic ValidationError (parse_obj failure)
  deriving DecidableEq, Repr

/-- The four FSM states of `VMC.states` in `vmc_core.py` / `vmc.py`:
`"idle"`, `"interacting_with_user"`, `"dispensing"`, `"error"`. -/
inductive MState
  | idle
  | interacting
  | dispensing
  | error
  deriving DecidableEq, Repr

/-- The five trigger names of the `TRANSITIONS` table (identical in
`vmc_core.py` and `vmc.py`). -/
inductive Trigger
  | start_interaction
  | dispense_product
  | complete_transaction
  | error_occurred
  | reset_state
  deriving DecidableEq, Repr

/-- Whether the `TRANSITIONS` table has an entry for the trigger whose
`source` matches the current state (`error_occurred` has source `"*"`;
`reset_state` has source `["error"]`). -/
def sourceMatches (st : MState) : Trigger → Bool
  | .start_interaction => st = MState.idle
  | .dispense_product => st = MState.interacting
  | .complete_transaction => st = MState.dispensing
  | .error_occurred => true
  | .reset_state => st = MState.error

namespace Core

/-- A product dict as used by `vmc_core.VMC` (`self.products` entries);
only the `"price"` key is read by the embedded operations
(`process_payment` does `self.selected_product.get("price", 0)`). -/
structure Product where
  price : Int
  deriving DecidableEq, Repr

/-- The mutable state of `vmc_core.VMC` together with the event-store log it
appends to.  `log` holds the records appended via `store.append_event`; the
entries are kept abstract as strings because the single append site
(`on_complete_transaction`) always raises before constructing its event
(see `fire`). -/
structure VMCCore where
  fsm : MState
  credit_escrow : Int
  selected_product : Option Product
  products : List Product
  log : List String
  deriving DecidableEq, Repr

/-- `VMC.has_credit`: `self.credit_escrow > 0`. -/
def has_credit (s : VMCCore) : Bool :=
  s.credit_escrow > 0

/-- `VMC.deposit_funds`: `self.credit_escrow += amount`, with no validation
of the amount whatsoever. -/
def deposit_funds (s : VMCCore) (amount : Int) : VMCCore :=
  { s with credit_escrow := s.credit_escrow + amount }

/-- `VMC.request_refund`: returns `0` leaving the escrow in place when
`credit_escrow <= 0`; otherwise returns the escrow and resets it to `0`. -/
def request_refund (s : VMCCore) : VMCCore × Int :=
  if s.credit_escrow ≤ 0 then (s, 0)
  else ({ s with credit_escrow := 0 }, s.credit_escrow)

/-- Firing a trigger on the `transitions.Machine` built by `vmc_core.VMC`
(constructed with `auto_transitions=False, ignore_invalid_triggers=True`).

Library semantics followed here: the table entries for the trigger are tried
in order; an entry applies when its `source` matches the current state and
its `conditions`/`unless` guard holds; the `before` callback runs, then the
state changes.  With `ignore_invalid_triggers=True` a trigger with no
applicable entry is silently ignored and the call returns `False`; an
exception raised by a `before` callback aborts the transition (no state
change) and propagates.  The result is `(new model state, whether a
transition fired)`.

Callbacks, from `vmc_core.py`:
 * `on_start_interaction`, `on_dispense_product`, `on_error` only log;
 * `on_complete_transaction` evaluates `self.channel.value` — but no code in
   `vmc_core.py` ever sets `self.channel` (nor `self.sku`, `self.amount`,
   `self.old_state`, `self.new_state`), so it raises `AttributeError`
   before building the `TransactionEvent`, and `store.append_event` is never
   reached (both `conditions="has_credit"` and `unless="has_credit"`
   branches share this callback, so either branch raises);
 * `on_reset` sets `selected_product = None` and `credit_escrow = 0.0`. -/
def fire (s : VMCCore) : Trigger → Except PyExn (VMCCore × Bool)
  | .start_interaction =>
      if s.fsm = MState.idle then .ok ({ s with fsm := MState.interacting }, true)
      else .ok (s, false)
  | .dispense_product =>
      if s.fsm = MState.interacting then .ok ({ s with fsm := MState.dispensing }, true)
      else .ok (s, false)
  | .complete_transaction =>
      if s.fsm = MState.dispensing then .error PyExn.attributeError
      else .ok (s, false)
  | .error_occurred =>
      .ok ({ s with fsm := MState.error }, true)
  | .reset_state =>
      if s.fsm = MState.error then
        .ok ({ s with fsm := MState.idle, selected_product := none, credit_escrow := 0 }, true)
      else .ok (s, false)

/-- `VMC.select_product`: an out-of-range index is logged and ignored;
otherwise the product is stored and `self.start_interaction()` is fired
(silently ignored unless the machine is idle). -/
def select_product (s : VMCCore) (product_index : Int) : Except PyExn VMCCore :=
  if product_index < 0 ∨ s.products.length ≤ product_index then .ok s
  else
    let s1 := { s with selected_product := s.products.get? product_index.toNat }
    (fire s1 .start_interaction).map Prod.fst

/-- `VMC.process_payment`: reads `self.selected_product.get("price", 0)`
(raising `AttributeError` when no product is selected, since
`None.get` does not exist); if the escrow covers the price it deducts the
price — before and regardless of the `dispense_product` trigger, which is
silently ignored unless the machine is in `interacting_with_user` — and
returns `(True, 0.0)`; otherwise returns `(False, needed)`. -/
def process_payment (s : VMCCore) : Except PyExn (VMCCore × Bool × Int) :=
  match s.selected_product with
  | none => .error PyExn.attributeError
  | some p =>
      if p.price ≤ s.credit_escrow then
        let s1 := { s with credit_escrow := s.credit_escrow - p.price }
        (fire s1 .dispense_product).map (fun r => (r.1, true, 0))
      else .ok (s, false, p.price - s.credit_escrow)

/-- The public ledger operations of claim C1, acting on a `VMCCore`:
deposits, product selection, spending through `process_payment`, and
refunds.  A raised exception leaves the state unchanged (each of the
operations above mutates nothing before its only raise site). -/
inductive LedgerOp
  | deposit (amount : Int)
  | select (product_index : Int)
  | spend
  | refund
  deriving DecidableEq, Repr

/-- Apply one ledger operation; the state observed by the caller after the
call (unchanged when the operation raised). -/
def applyLedgerOp (s : VMCCore) : LedgerOp → VMCCore
  | .deposit a => deposit_funds s a
  | .select i =>
      match select_product s i with
      | .ok s1 => s1
      | .error _ => s
  | .spend =>
      match process_payment s with
      | .ok r => r.1
      | .error _ => s
  | .refund => (request_refund s).1

/-- Run a sequence of ledger operations. -/
def runOps (s : VMCCore) (ops : List LedgerOp) : VMCCore :=
  ops.foldl applyLedgerOp s

/-- The initial `vmc_core.VMC` runtime state for a given catalogue:
`initial="idle"`, `selected_product = None`, `credit_escrow = 0.0`,
empty event log. -/
def initCore (products : List Product) : VMCCore :=
  { fsm := MState.idle
    credit_escrow := 0
    selected_product := none
    products := products
    log := [] }

/-- Every deposit in the sequence carries a non-negative amount. -/
def depositsNonneg (ops : List LedgerOp) : Bool :=
  ops.all fun op =>
    match op with
    | .deposit a => 0 ≤ a
    | _ => true

end Core

namespace Full

/-- A product dict as read by `vmc.py` (`self.products` entries): the
embedded operations read `"price"`, `"track_inventory"` and
`"inventory_count"` (and `"name"` for messages only). -/
structure Product where
  name : String
  price : Int
  track_inventory : Bool
  inventory_count : Int
  deriving DecidableEq, Repr

/-- The mutable business state of `vmc.py`'s `VMC`.  `selected_product` is a
reference into the `products` list, modelled as an index (so that the
inventory decrement in `_finish_dispensing` is visible through
`products`).  UI callbacks, customer messages and the virtual-payment
bookkeeping of `vmc.py` touch no field read by any claim and are omitted. -/
structure VMCFull where
  fsm : MState
  credit_escrow : Int
  selected_product : Option Nat
  products : List Product
  deriving DecidableEq, Repr

/-- `vmc.VMC.has_credit`: `self.credit_escrow > 0`. -/
def has_credit (s : VMCFull) : Bool :=
  s.credit_escrow > 0

/-- Firing a trigger on the `transitions.Machine` built by `vmc.py`'s `VMC`
(constructed with `auto_transitions=False` and withOUT
`ignore_invalid_triggers`, so a trigger with no entry for the current state
raises `MachineError`).  The `before` callbacks of `vmc.py` only log,
refresh the UI and send messages, except `on_reset` which clears
`selected_product` (it does not touch `credit_escrow`). -/
def fire (s : VMCFull) : Trigger → Except PyExn (VMCFull × Bool)
  | .start_interaction =>
      if s.fsm = MState.idle then .ok ({ s with fsm := MState.interacting }, true)
      else .error PyExn.machineError
  | .dispense_product =>
      if s.fsm = MState.interacting then .ok ({ s with fsm := MState.dispensing }, true)
      else .error PyExn.machineError
  | .complete_transaction =>
      if s.fsm = MState.dispensing then
        if has_credit s then .ok ({ s with fsm := MState.interacting }, true)
        else .ok ({ s with fsm := MState.idle }, true)
      else .error PyExn.machineError
  | .error_occurred =>
      .ok ({ s with fsm := MState.error }, true)
  | .reset_state =>
      if s.fsm = MState.error then
        .ok ({ s with fsm := MState.idle, selected_product := none }, true)
      else .error PyExn.machineError

/-- `vmc.VMC.deposit_funds`: `self.credit_escrow += amount`, unvalidated. -/
def deposit_funds (s : VMCFull) (amount : Int) : VMCFull :=
  { s with credit_escrow := s.credit_escrow + amount }

/-- `vmc.VMC.request_refund`: resets the escrow when it is positive,
otherwise only sends a message. -/
def request_refund (s : VMCFull) : VMCFull :=
  if s.credit_escrow > 0 then { s with credit_escrow := 0 } else s

/-- `vmc.VMC.select_product`: returns early unless the machine is idle or
interacting, or when the index is out of range; stores the selection; a
tracked product with no inventory is reported sold out (after the selection
was already stored); from idle, fires `start_interaction` (which cannot
fail there).  The `tk_root.after`-scheduled continuation
(`_process_payment`) and `initiate_virtual_payment` are driven separately
by the caller/UI and are not part of this call's state change. -/
def select_product (s : VMCFull) (product_index : Nat) : Except PyExn VMCFull :=
  if s.fsm ≠ MState.idle ∧ s.fsm ≠ MState.interacting then .ok s
  else if s.products.length ≤ product_index then .ok s
  else
    match s.products.get? product_index with
    | none => .ok s
    | some p =>
        let s1 := { s with selected_product := some product_index }
        if p.track_inventory ∧ p.inventory_count ≤ 0 then .ok s1
        else if s.fsm = MState.idle then (fire s1 .start_interaction).map Prod.fst
        else .ok s1

/-- Price of the selected product:
`self.selected_product.get("price", 0) if self.selected_product else 0`. -/
def selectedPrice (s : VMCFull) : Int :=
  match s.selected_product with
  | none => 0
  | some i => ((s.products.get? i).map Product.price).getD 0

/-- `vmc.VMC._process_payment`: aborts unless interacting; if the escrow
covers the selected price, deducts the price and fires `dispense_product`
(which cannot fail from interacting); otherwise records an
insufficient-funds message and reschedules itself (no state change beyond
the message, which is omitted here). -/
def process_payment (s : VMCFull) : VMCFull :=
  if s.fsm ≠ MState.interacting then s
  else if selectedPrice s ≤ s.credit_escrow then
    let s1 := { s with credit_escrow := s.credit_escrow - selectedPrice s }
    match fire s1 .dispense_product with
    | .ok r => r.1
    | .error _ => s1
  else s

/-- `vmc.VMC._finish_dispensing`: aborts unless dispensing; decrements
`inventory_count` of the selected product when it tracks inventory; then
fires `complete_transaction` (which cannot fail from dispensing and picks
its destination by the `has_credit` guard). -/
def finish_dispensing (s : VMCFull) : VMCFull :=
  if s.fsm ≠ MState.dispensing then s
  else
    let s1 :=
      match s.selected_product with
      | none => s
      | some i =>
          match s.products.get? i with
          | none => s
          | some p =>
              if p.track_inventory then
                { s with products :=
                    s.products.set i { p with inventory_count := p.inventory_count - 1 } }
              else s
    match fire s1 .complete_transaction with
    | .ok r => r.1
    | .error _ => s1

/-- Initial `vmc.py` business state: `initial=VMC.states[0]` (idle),
`selected_product = None`, `credit_escrow = 0.0`. -/
def initFull (products : List Product) : VMCFull :=
  { fsm := MState.idle
    credit_escrow := 0
    selected_product := none
    products := products }

end Full

namespace Store

/-- The two files owned by an `EventStore` (`src/controller/event_store.py`):
the snapshot file and the append-only event log, each modelled by its
current contents. -/
structure FS where
  snapshotFile : String
  logFile : String
  deriving DecidableEq, Repr

/-- The primitive file-system steps executed, in order, by
`EventStore.write_snapshot(state)`:

 1. `self.snapshot_path.open('w')` truncates the snapshot file in place;
 2. `f.write(snapshot.model_dump_json(indent=2))` fills it with the
    serialized snapshot;
 3. `self.log_path.write_text('')` clears the event log.

There is no temporary file and no rename; the `atomic_write` helper of
`src/config/state_model.py` is not called here. -/
def writeSnapshotSteps (data : String) : List (FS → FS) :=
  [ fun fs => { fs with snapshotFile := "" },
    fun fs => { fs with snapshotFile := data },
    fun fs => { fs with logFile := "" } ]

/-- Every file-system state observable while a step list runs (before,
between and after the steps): a reader — or a crash — can see any of
them. -/
def observableStates (steps : List (FS → FS)) (fs0 : FS) : List FS :=
  steps.scanl (fun fs step => step fs) fs0

/-- `EventStore.write_snapshot` as a state transformer: the composition of
its primitive steps. -/
def write_snapshot (data : String) (fs0 : FS) : FS :=
  (writeSnapshotSteps data).foldl (fun fs step => step fs) fs0

/-- The target file of `atomic_write(path, data)`
(`src/config/state_model.py`) and its side temp file `path + ".tmp"`. -/
structure FS2 where
  targetFile : String
  tmpFile : String
  deriving DecidableEq, Repr

/-- The primitive steps of `atomic_write`: write the data to the temp file,
then `os.replace(tmp_path, path)` — an atomic rename installing the temp
file's contents as the target. -/
def atomicWriteSteps (data : String) : List (FS2 → FS2) :=
  [ fun fs => { fs with tmpFile := data },
    fun fs => { fs with targetFile := fs.tmpFile } ]

/-- Every target-and-temp state observable while `atomic_write` runs. -/
def observableStates2 (steps : List (FS2 → FS2)) (fs0 : FS2) : List FS2 :=
  steps.scanl (fun fs step => step fs) fs0

/-- One line of the event log as seen by `EventStore.replay_events`:

 * `notJson`: `json.loads(line)` raises `JSONDecodeError` — caught, the
   line is skipped with a warning;
 * `nonObject`: the line is valid JSON but not an object, so
   `payload.get('type')` raises `AttributeError` — not caught;
 * `object ty parsed`: a JSON object whose `'type'` key holds `ty` (or is
   absent), with `parsed` the outcome of `event_type.parse_obj(payload)`
   (`none` = pydantic `ValidationError`, which is not caught either).
`α` stands for the deserialized event record. -/
inductive LogLine (α : Type)
  | notJson
  | nonObject
  | object (ty : Option String) (parsed : Option α)
  deriving DecidableEq, Repr

/-- `EventStore.replay_events(event_type)` over the log's lines, in order:
skip lines that fail `json.loads`; skip objects whose `'type'` differs from
the requested default; collect the parsed record otherwise.  Uncaught
exceptions (`nonObject`, `ValidationError`) abort the whole replay. -/
def replay_events {α : Type} (want : String) : List (LogLine α) → Except PyExn (List α)
  | [] => .ok []
  | .notJson :: rest => replay_events want rest
  | .nonObject :: _ => .error PyExn.attributeError
  | .object ty parsed :: rest =>
      if ty = some want then
        match parsed with
        | some a => (replay_events want rest).map (a :: ·)
        | none => .error PyExn.validationError
      else replay_events want rest

/-- The records of the requested type among the log's decodable,
validation-passing lines, in log order. -/
def validMatches {α : Type} (want : String) (lines : List (LogLine α)) : List α :=
  lines.filterMap fun l =>
    match l with
    | .object ty (some a) => if ty = some want then some a else none
    | _ => none

/-- A line the replay loop survives: either undecodable (skipped) or an
object whose record parses. -/
def lineOk {α : Type} : LogLine α → Bool
  | .notJson => true
  | .object _ (some _) => true
  | _ => false

end Store

namespace Race

/-- A poll result of a gateway adapter's `check_payment_status()`. -/
inductive PollStatus
  | pending
  | success
  | timeout
  deriving DecidableEq, Repr

/-- A virtual payment gateway adapter as consumed by
`VirtualPaymentFSM._poll_gateway`: its name (the dict key) and the status
its `check_payment_status()` reports on the k-th call (k = 1, 2, ...). -/
structure Gateway where
  name : String
  statuses : Nat → PollStatus

/-- The polling loop of `_poll_gateway`, `fuel` iterations remaining and
the next call being the k-th: sleep one poll interval, check the status;
`success` completes the task at tick k with the gateway's name; `timeout`
completes it at tick k with `None`; `pending` continues; an exhausted loop
(`for i in range(10)`) completes with `None` at the tick of the last
sleep.  The returned pair is (completion tick, task result). -/
def pollAux (g : Gateway) (k : Nat) : Nat → Nat × Option String
  | 0 => (k - 1, none)
  | fuel + 1 =>
      match g.statuses k with
      | .success => (k, some g.name)
      | .timeout => (k, none)
      | .pending => pollAux g (k + 1) fuel

/-- `_poll_gateway(gateway, amount)`: up to 10 polls, one per poll
interval. -/
def pollGateway (g : Gateway) : Nat × Option String :=
  pollAux g 1 10

/-- The tick (multiple of the poll interval) at which the gateway's polling
task completes. -/
def completionTick (g : Gateway) : Nat :=
  (pollGateway g).1

/-- The value the gateway's polling task returns: `some name` on success,
`none` on timeout or exhausted attempts. -/
def pollResult (g : Gateway) : Option String :=
  (pollGateway g).2

/-- What `start_transaction` hands back on normal return. -/
structure RaceReturn where
  /-- `self.successful_gateway`: the first non-`None` result among the
  first-completed tasks, else `None` (reported as `payment_failure`, the
  all-gateways-failed outcome). -/
  winner : Option String
  /-- Names of the tasks in `done` when `asyncio.wait` returned. -/
  doneTasks : List String
  /-- Names of the still-pending tasks, each given `task.cancel()` — a
  cancellation *request* only; nothing awaits these tasks before the
  function returns. -/
  cancelledTasks : List String
  deriving DecidableEq, Repr

/-- The earliest completion tick among the launched tasks (meaningful only
for a non-empty gateway list). -/
def minTickOf (gs : List Gateway) : Nat :=
  ((gs.map completionTick).min?).getD 0

/-- `VirtualPaymentFSM.start_transaction(amount)`: launch one `_poll_gateway`
task per adapter, in adapter order, then `asyncio.wait(tasks,
return_when=FIRST_COMPLETED)`.

 * With zero adapters, `asyncio.wait` is called on an empty task set and
   raises `ValueError` — nothing is launched and nothing is returned.
 * Otherwise `asyncio.wait` returns at the earliest completion tick;
   `done` holds exactly the tasks completing at that tick (tasks sleeping
   the same interval wake in the same loop pass, before the waiter), and
   `pending` the rest.  The first task in `done` with a non-`None` result
   (iteration of the `done` set is modelled in task-creation order, the
   spec's arrival order) becomes `successful_gateway`; every pending task
   gets `task.cancel()`; the function then returns without awaiting any of
   them. -/
def start_transaction (gs : List Gateway) : Except PyExn RaceReturn :=
  match (gs.map completionTick).min? with
  | none => .error PyExn.valueError
  | some t =>
      let done := gs.filter fun g => completionTick g = t
      let pending := gs.filter fun g => completionTick g ≠ t
      .ok { winner := (done.filterMap pollResult).head?
            doneTasks := done.map Gateway.name
            cancelledTasks := pending.map Gateway.name }

/-- Lifecycle phase of one launched polling task at the instant
`start_transaction` returns to its caller. -/
inductive TaskPhase
  | finished
  | cancelRequested
  deriving DecidableEq, Repr

/-- Phase of gateway `g`'s task when `start_transaction gs` returns: tasks
that completed at the earliest tick are finished; every other task only
had `cancel()` called on it, and since no `await` sits between those
`cancel()` calls and the `return`, the event loop never ran the task again
— it has not acknowledged the cancellation (its `except CancelledError`
handler has not executed) and is still alive when the caller resumes. -/
def phaseAtReturn (gs : List Gateway) (g : Gateway) : TaskPhase :=
  if completionTick g = minTickOf gs then .finished else .cancelRequested

/-- The fields of `VirtualPaymentFSM` that `cancel_transaction` touches:
the task list, `self.status["state"]`, and the stream of events sent
through `self.notify`. -/
structure VPState where
  virtual_payment_tasks : List String
  statusState : String
  notified : List String
  deriving DecidableEq, Repr

/-- `VirtualPaymentFSM.cancel_transaction`: when tasks are outstanding,
request cancellation of each, clear the list, set the status to
`"cancelled"` and notify `payment_cancelled` (then `await sleep(0)`);
otherwise only log a debug line. -/
def cancel_transaction (s : VPState) : VPState :=
  if s.virtual_payment_tasks ≠ [] then
    { virtual_payment_tasks := []
      statusState := "cancelled"
      notified := s.notified ++ ["payment_cancelled"] }
  else s

/-- The gateways whose tasks are in `done` when `asyncio.wait` returns:
those completing at the earliest tick. -/
def firstDone (gs : List Gateway) : List Gateway :=
  gs.filter fun g => completionTick g = minTickOf gs

/-- The gateways whose tasks are still pending when `asyncio.wait`
returns: the losers, each handed a `task.cancel()` request. -/
def losers (gs : List Gateway) : List Gateway :=
  gs.filter fun g => completionTick g ≠ minTickOf gs

/-- An adapter that answers `timeout` on its first poll: its task completes
at tick 1 with failure. -/
def gwTimeoutA : Gateway :=
  ⟨"A", fun _ => PollStatus.timeout⟩

/-- An adapter that is pending on the first poll and succeeds on the
second: its task completes at tick 2 with success. -/
def gwLateB : Gateway :=
  ⟨"B", fun k => if 2 ≤ k then PollStatus.success else PollStatus.pending⟩

/-- An adapter that succeeds on its first poll. -/
def gwSuccessS : Gateway :=
  ⟨"S", fun _ => PollStatus.success⟩

/-- An adapter that stays pending forever: its task exhausts all ten
attempts and completes at tick 10 with failure. -/
def gwPendingP : Gateway :=
  ⟨"P", fun _ => PollStatus.pending⟩

end Race

/-
Theorems.  Claim-level results are named `C<n>_...`; lemmas shared between
them carry descriptive names.
-/

/-- C1 (counterexample): the claimed invariant `escrow >= 0 after every
sequence of deposit/spend/refund operations` fails at the one-operation
sequence `deposit_funds(-1)`: `deposit_funds` validates nothing, so the
escrow becomes `-1`. -/
theorem C1_counterexample :
    (Core.runOps (Core.initCore [⟨125⟩]) [Core.LedgerOp.deposit (-1)]).credit_escrow < 0 := by
  decide

/-- Escrow is preserved by every `fire` other than a `reset_state` (which
sets it to `0`): the before callbacks of the core machine never touch
`credit_escrow` except `on_reset`. -/
theorem fire_preserves_escrow (s : Core.VMCCore) (t : Trigger) (s1 : Core.VMCCore) (b : Bool)
    (ht : t ≠ Trigger.reset_state) (h : Core.fire s t = .ok (s1, b)) :
    s1.credit_escrow = s.credit_escrow := by
  cases t with
  | start_interaction =>
      by_cases hs : s.fsm = MState.idle <;> simp [Core.fire, hs] at h <;> simp [← h.1]
  | dispense_product =>
      by_cases hs : s.fsm = MState.interacting <;> simp [Core.fire, hs] at h <;> simp [← h.1]
  | complete_transaction =>
      by_cases hs : s.fsm = MState.dispensing <;> simp [Core.fire, hs] at h; simp [← h.1]
  | error_occurred =>
      simp [Core.fire] at h; simp [← h.1]
  | reset_state => exact absurd rfl ht

/-- One ledger operation keeps a non-negative escrow non-negative, provided
a deposit's amount is non-negative: spending is guarded by
`credit_escrow >= price`, refunding resets to `0` or leaves the escrow in
place, and selection never touches the escrow. -/
theorem applyLedgerOp_nonneg (s : Core.VMCCore) (op : Core.LedgerOp)
    (hs : 0 ≤ s.credit_escrow) (hop : ∀ a, op = Core.LedgerOp.deposit a → 0 ≤ a) :
    0 ≤ (Core.applyLedgerOp s op).credit_escrow := by
  cases op with
  | deposit a =>
      have ha := hop a rfl
      simp only [Core.applyLedgerOp, Core.deposit_funds]
      omega
  | select i =>
      simp only [Core.applyLedgerOp, Core.select_product]
      by_cases hi : i < 0 ∨ (s.products.length : Int) ≤ i
      · simp [hi, hs]
      · simp only [hi, if_false]
        cases hfire : Core.fire { s with selected_product := s.products.get? i.toNat }
            Trigger.start_interaction with
        | error e => simp [Except.map, hfire, hs]
        | ok r =>
            obtain ⟨s2, b⟩ := r
            have hr : s2.credit_escrow =
                (Core.VMCCore.mk s.fsm s.credit_escrow (s.products.get? i.toNat)
                  s.products s.log).credit_escrow :=
              fire_preserves_escrow _ Trigger.start_interaction s2 b (by decide) hfire
            simp only [Except.map, hfire]
            simp only [hr]
            exact hs
  | spend =>
      simp only [Core.applyLedgerOp, Core.process_payment]
      cases hsel : s.selected_product with
      | none => simpa using hs
      | some p =>
          by_cases hp : p.price ≤ s.credit_escrow
          · simp only [hp, if_true]
            cases hfire : Core.fire (Core.VMCCore.mk s.fsm (s.credit_escrow - p.price)
                (some p) s.products s.log) Trigger.dispense_product with
            | error e => simp [Except.map, hfire, hs]
            | ok r =>
                obtain ⟨s2, b⟩ := r
                have hr : s2.credit_escrow =
                    (Core.VMCCore.mk s.fsm (s.credit_escrow - p.price) (some p)
                      s.products s.log).credit_escrow :=
                  fire_preserves_escrow _ Trigger.dispense_product s2 b (by decide) hfire
                simp only [Except.map, hfire]
                simp only [hr]
                omega
          · simp [hp, hs]
  | refund =>
      simp only [Core.applyLedgerOp, Core.request_refund]
      by_cases hr : s.credit_escrow ≤ 0 <;> simp [hr, hs]

/-- C1 (amended): starting from escrow `0`, every sequence of ledger
operations in which each deposit carries a non-negative amount keeps the
escrow non-negative after every operation (i.e. after every prefix of the
sequence); `deposit_funds` itself accepts negative amounts, which break the
invariant. -/
theorem C1_escrow_nonneg (products : List Core.Product) (ops : List Core.LedgerOp)
    (h : Core.depositsNonneg ops = true) (n : Nat) :
    0 ≤ (Core.runOps (Core.initCore products) (ops.take n)).credit_escrow := by
  have key : ∀ (l : List Core.LedgerOp) (s : Core.VMCCore),
      (∀ op ∈ l, ∀ a, op = Core.LedgerOp.deposit a → 0 ≤ a) → 0 ≤ s.credit_escrow →
      0 ≤ (Core.runOps s l).credit_escrow := by
    intro l
    induction l with
    | nil => intro s _ hs; exact hs
    | cons op rest ih =>
        intro s hl hs
        exact ih _ (fun o ho => hl o (List.mem_cons_of_mem _ ho))
          (applyLedgerOp_nonneg s op hs (hl op (List.mem_cons_self _ _)))
  refine key _ _ ?_ (le_refl 0)
  intro op hop a ha
  have hmem : op ∈ ops := (List.take_sublist n ops).subset hop
  have := List.all_eq_true.mp h op hmem
  subst ha
  simpa [Core.depositsNonneg] using this

/-- C1 (witness): the amended invariant at a concrete run — deposit 125,
select the 125-priced product, spend, refund. -/
theorem C1_escrow_nonneg_witness :
    0 ≤ (Core.runOps (Core.initCore [⟨125⟩])
          ([Core.LedgerOp.deposit 125, Core.LedgerOp.select 0,
            Core.LedgerOp.spend, Core.LedgerOp.refund].take 4)).credit_escrow :=
  C1_escrow_nonneg [⟨125⟩] _ (by decide) 4

/-- C3 (counterexample): `start_interaction` fired from idle changes the
in-memory FSM state without appending any event to the store (the log is
empty before and after) and without any persistence failure, so the claimed
append-before-transition discipline fails at this transition. -/
theorem C3_counterexample :
    Core.fire (Core.VMCCore.mk MState.idle 50 none [] []) Trigger.start_interaction =
      .ok (Core.VMCCore.mk MState.interacting 50 none [] [], true) := by
  rfl

/-- C3 (amended): no successful transition of the core machine ever appends
an event (the log is unchanged by every non-raising `fire`), and the one
transition whose before callback does attempt an append —
`complete_transaction`, fired from dispensing — always raises
`AttributeError` before reaching `store.append_event` (its callback reads
`self.channel`, which is never set), aborting the transition with the
in-memory state unchanged; the caller receives that `AttributeError`, not a
`PersistenceFailure`. -/
theorem C3_no_event_discipline :
    (∀ (s : Core.VMCCore) (t : Trigger) (s1 : Core.VMCCore) (b : Bool),
        Core.fire s t = .ok (s1, b) → s1.log = s.log)
    ∧ (∀ s : Core.VMCCore, s.fsm = MState.dispensing →
        Core.fire s Trigger.complete_transaction = .error PyExn.attributeError) := by
  constructor
  · intro s t s1 b h
    cases t with
    | start_interaction =>
        by_cases hs : s.fsm = MState.idle <;> simp [Core.fire, hs] at h <;> simp [← h.1]
    | dispense_product =>
        by_cases hs : s.fsm = MState.interacting <;> simp [Core.fire, hs] at h <;> simp [← h.1]
    | complete_transaction =>
        by_cases hs : s.fsm = MState.dispensing <;> simp [Core.fire, hs] at h; simp [← h.1]
    | error_occurred =>
        simp [Core.fire] at h; simp [← h.1]
    | reset_state =>
        by_cases hs : s.fsm = MState.error <;> simp [Core.fire, hs] at h <;> simp [← h.1]
  · intro s h
    simp [Core.fire, h]

/-- C3 (witness): the amended statement at concrete inputs — the log after
a successful `start_interaction` from idle equals the log before, and
`complete_transaction` from dispensing raises `AttributeError`. -/
theorem C3_no_event_discipline_witness :
    (Core.VMCCore.mk MState.interacting 50 none [] []).log =
      (Core.VMCCore.mk MState.idle 50 none [] []).log
    ∧ Core.fire (Core.VMCCore.mk MState.dispensing 0 none [] [])
        Trigger.complete_transaction = .error PyExn.attributeError :=
  ⟨C3_no_event_discipline.1 (Core.VMCCore.mk MState.idle 50 none [] [])
      Trigger.start_interaction (Core.VMCCore.mk MState.interacting 50 none [] []) true rfl,
    C3_no_event_discipline.2 (Core.VMCCore.mk MState.dispensing 0 none [] []) rfl⟩

/-- C4 (counterexample): while `write_snapshot` runs, the file-system state
in which the snapshot file has been truncated but not yet rewritten — its
contents neither the old snapshot nor the new one — is observable, so the
claimed temp-file-then-atomic-rename sequence with no observable partial
file fails. -/
theorem C4_counterexample :
    Store.FS.mk "" "e1" ∈
        Store.observableStates (Store.writeSnapshotSteps "new") (Store.FS.mk "old" "e1")
    ∧ ("" : String) ≠ "old" ∧ ("" : String) ≠ "new" := by
  decide

/-- C4 (amended): `write_snapshot` overwrites the snapshot file in place —
`open('w')` truncates it and the serialized state is then written, so a
partial (truncated) snapshot file is observable between those steps — and
afterwards it clears the event log, which therefore only holds events
appended since the last snapshot; the `atomic_write` helper of
`state_model.py` does follow a temp-file-then-atomic-rename sequence whose
observable target contents are always either the old or the new data, but
`write_snapshot` does not use it. -/
theorem C4_snapshot_overwrite :
    (∀ (data : String) (fs0 : Store.FS),
        Store.write_snapshot data fs0 = Store.FS.mk data "")
    ∧ (∀ (data : String) (d0 fs2 : Store.FS2),
        fs2 ∈ Store.observableStates2 (Store.atomicWriteSteps data) d0 →
        fs2.targetFile = d0.targetFile ∨ fs2.targetFile = data) := by
  constructor
  · intro data fs0
    rfl
  · intro data d0 fs2 h
    simp only [Store.observableStates2, Store.atomicWriteSteps, List.scanl,
      List.mem_cons, List.not_mem_nil, or_false] at h
    rcases h with h | h | h <;> subst h
    · left; rfl
    · left; rfl
    · right; rfl

/-- C4 (witness): the amended statement at concrete inputs — writing
snapshot `"new"` over `"old"` with log `"e1"` ends with the snapshot file
holding `"new"` and the log cleared, and an observable `atomic_write`
state's target holds the old or the new contents. -/
theorem C4_snapshot_overwrite_witness :
    Store.write_snapshot "new" (Store.FS.mk "old" "e1") = Store.FS.mk "new" ""
    ∧ ((Store.FS2.mk "old" "new").targetFile = (Store.FS2.mk "old" "x").targetFile
        ∨ (Store.FS2.mk "old" "new").targetFile = "new") :=
  ⟨C4_snapshot_overwrite.1 "new" (Store.FS.mk "old" "e1"),
    C4_snapshot_overwrite.2 "new" (Store.FS2.mk "old" "x") (Store.FS2.mk "old" "new")
      (by decide)⟩

/-- C5 (counterexample): firing `dispense_product` from idle — a state
matching no transition's source — is not rejected with any error: the call
returns normally with `False` (the core machine is built with
`ignore_invalid_triggers=True`), so the claimed `InvalidTransition` error
reported to the caller fails at this input. -/
theorem C5_counterexample :
    Core.fire (Core.initCore [⟨125⟩]) Trigger.dispense_product =
      .ok (Core.initCore [⟨125⟩], false) := by
  rfl

/-- C5 (amended): a trigger fired in a state matching no transition's
source leaves the core machine entirely unchanged — FSM state, escrow,
selection and event log — and appends nothing, but it is silently ignored
(the call returns `False` with no exception) rather than rejected with an
`InvalidTransition` error; on the `vmc.py` machine, built without
`ignore_invalid_triggers`, the same mismatch raises `MachineError` to the
caller (also with no state change).  The only guarded trigger,
`complete_transaction`, carries complementary `has_credit` branches, so a
false guard never rejects a source-matching trigger. -/
theorem C5_invalid_trigger_ignored :
    (∀ (s : Core.VMCCore) (t : Trigger), sourceMatches s.fsm t = false →
        Core.fire s t = .ok (s, false))
    ∧ (∀ (s : Full.VMCFull) (t : Trigger), sourceMatches s.fsm t = false →
        Full.fire s t = .error PyExn.machineError) := by
  constructor
  · intro s t h
    cases t <;> simp_all [sourceMatches, Core.fire]
  · intro s t h
    cases t <;> simp_all [sourceMatches, Full.fire]

/-- C5 (witness): the amended statement at concrete inputs — `reset_state`
fired while interacting is silently ignored by the core machine and raises
`MachineError` on the `vmc.py` machine. -/
theorem C5_invalid_trigger_ignored_witness :
    Core.fire (Core.VMCCore.mk MState.interacting 75 none [] []) Trigger.reset_state =
      .ok (Core.VMCCore.mk MState.interacting 75 none [] [], false)
    ∧ Full.fire (Full.initFull []) Trigger.dispense_product = .error PyExn.machineError :=
  ⟨C5_invalid_trigger_ignored.1 (Core.VMCCore.mk MState.interacting 75 none [] [])
      Trigger.reset_state (by decide),
    C5_invalid_trigger_ignored.2 (Full.initFull []) Trigger.dispense_product (by decide)⟩

/-- C7: on the controller FSM, starting idle with escrow 0: deposit(125)
then selecting the product priced 125 drives Idle → Interacting →
Dispensing → Idle with final escrow exactly 0; deposit(200) then selecting
the same product ends in Interacting — not Idle — with escrow exactly 75
after the dispense completes. -/
theorem C7_fsm_payment_scenarios :
    (do
      let s1 := Full.deposit_funds (Full.initFull [⟨"A", 125, false, 0⟩]) 125
      let s2 ← Full.select_product s1 0
      let s3 := Full.process_payment s2
      let s4 := Full.finish_dispensing s3
      pure (s1.fsm, s2.fsm, s3.fsm, s4.fsm, s4.credit_escrow) :
        Except PyExn (MState × MState × MState × MState × Int)) =
      .ok (MState.idle, MState.interacting, MState.dispensing, MState.idle, 0)
    ∧ (do
      let s1 := Full.deposit_funds (Full.initFull [⟨"A", 125, false, 0⟩]) 200
      let s2 ← Full.select_product s1 0
      let s3 := Full.process_payment s2
      let s4 := Full.finish_dispensing s3
      pure (s4.fsm, s4.credit_escrow) : Except PyExn (MState × Int)) =
      .ok (MState.interacting, 75) := by
  exact ⟨rfl, rfl⟩

/-- C9 (counterexample): with zero configured adapters,
`start_transaction` does not return at all — `asyncio.wait` is handed an
empty task set and raises — so the claimed `AllGatewaysFailed` return
without any error fails. -/
theorem C9_counterexample :
    (Race.start_transaction ([] : List Race.Gateway)).isOk = false := by
  rfl

/-- C9 (amended): with zero configured adapters no polling task is
launched, and `start_transaction` raises `ValueError` (from
`asyncio.wait` on the empty task set) instead of returning the
`AllGatewaysFailed` outcome. -/
theorem C9_empty_adapters_raise :
    Race.start_transaction ([] : List Race.Gateway) = .error PyExn.valueError := by
  rfl

/-- C10: every `reset_state` fired from the Error state resets the escrow
to 0 and clears the selected product before entering Idle, leaving the
event log untouched — any un-refunded credit is silently discarded, with
no refund issued and no refund event appended. -/
theorem C10_reset_discards_escrow (s : Core.VMCCore) (h : s.fsm = MState.error) :
    Core.fire s Trigger.reset_state =
      .ok (Core.VMCCore.mk MState.idle 0 none s.products s.log, true) := by
  simp [Core.fire, h]

/-- C2 (counterexample): with adapter `A` timing out on its first poll and
adapter `B` succeeding on its second, `asyncio.wait` returns at `A`'s
completion: the race reports the all-gateways-failed outcome (winner
`None`) and cancels `B` even though `B` reports success — so the claimed
`continue with the remaining adapters` and `failure iff every adapter
fails or times out` both fail at this input. -/
theorem C2_counterexample :
    Race.start_transaction [Race.gwTimeoutA, Race.gwLateB] =
      .ok (Race.RaceReturn.mk none ["A"] ["B"])
    ∧ Race.pollResult Race.gwLateB = some "B" := by
  exact ⟨rfl, rfl⟩

/-- Heads of a `filterMap` are `none` exactly when the function returns
`none` on every element. -/
theorem head?_filterMap_eq_none {α β : Type} (f : α → Option β) (l : List α) :
    (l.filterMap f).head? = none ↔ ∀ a ∈ l, f a = none := by
  rw [List.head?_eq_none_iff, List.filterMap_eq_nil_iff]

/-- C2 (amended): for a non-empty adapter set the race resolves at the
earliest task completion, not at the first success: the tasks completing
at the earliest tick form `done`; the winner is the first success among
them (ties broken by task-creation order), every later task is cancelled,
and the race reports `AllGatewaysFailed` exactly when no first-completed
task succeeded — even if a cancelled later adapter would have succeeded.
Per task, a `timeout` or exhausted attempts produce failure for that
adapter only, in the sense that its task completes with result `None`. -/
theorem C2_first_completed_decides (gs : List Race.Gateway) (h : gs ≠ []) :
    Race.start_transaction gs =
      .ok (Race.RaceReturn.mk ((Race.firstDone gs).filterMap Race.pollResult).head?
        ((Race.firstDone gs).map Race.Gateway.name)
        ((Race.losers gs).map Race.Gateway.name))
    ∧ (((Race.firstDone gs).filterMap Race.pollResult).head? = none ↔
        ∀ g ∈ Race.firstDone gs, Race.pollResult g = none) := by
  have hne : gs.map Race.completionTick ≠ [] := by simpa using h
  refine ⟨?_, head?_filterMap_eq_none _ _⟩
  cases hm : (gs.map Race.completionTick).min? with
  | none => exact absurd (List.min?_eq_none_iff.mp hm) hne
  | some t =>
      have htick : Race.minTickOf gs = t := by simp [Race.minTickOf, hm]
      simp [Race.start_transaction, hm, Race.firstDone, Race.losers, htick]

/-- C2 (witness): the amended statement at the concrete two-adapter race
where `S` succeeds immediately and `P` stays pending. -/
theorem C2_first_completed_decides_witness :
    (Race.start_transaction [Race.gwSuccessS, Race.gwPendingP] =
      .ok (Race.RaceReturn.mk
        ((Race.firstDone [Race.gwSuccessS, Race.gwPendingP]).filterMap Race.pollResult).head?
        ((Race.firstDone [Race.gwSuccessS, Race.gwPendingP]).map Race.Gateway.name)
        ((Race.losers [Race.gwSuccessS, Race.gwPendingP]).map Race.Gateway.name)))
    ∧ ((((Race.firstDone [Race.gwSuccessS, Race.gwPendingP]).filterMap
          Race.pollResult).head? = none) ↔
        ∀ g ∈ Race.firstDone [Race.gwSuccessS, Race.gwPendingP],
          Race.pollResult g = none) :=
  C2_first_completed_decides [Race.gwSuccessS, Race.gwPendingP] (List.cons_ne_nil _ _)

/-- C6 (counterexample): in the race where `S` succeeds on the first poll
and `P` never completes, `start_transaction` returns with `S` as winner
while `P`'s task has only had cancellation requested — it has not
acknowledged it (its `except CancelledError` handler has not run, since
nothing awaits it between `task.cancel()` and the `return`) — so the
claimed `does not return until all losing tasks have acknowledged
cancellation` fails at this input. -/
theorem C6_counterexample :
    Race.start_transaction [Race.gwSuccessS, Race.gwPendingP] =
      .ok (Race.RaceReturn.mk (some "S") ["S"] ["P"])
    ∧ Race.phaseAtReturn [Race.gwSuccessS, Race.gwPendingP] Race.gwPendingP =
        Race.TaskPhase.cancelRequested := by
  exact ⟨rfl, rfl⟩

/-- C6 (amended): when the race resolves, every losing (still-pending)
task is signalled to cancel — the returned `cancelledTasks` are exactly
the tasks that did not complete at the earliest tick — but the race
returns without awaiting their acknowledgment, leaving them detached until
the event loop next runs them; `cancel_transaction` is idempotent: calling
it twice has the same effect on the FSM's task list, status and
notifications as calling it once. -/
theorem C6_cancel_requested_only (s : Race.VPState) (gs : List Race.Gateway)
    (r : Race.RaceReturn) (h : Race.start_transaction gs = .ok r) :
    Race.cancel_transaction (Race.cancel_transaction s) = Race.cancel_transaction s
    ∧ r.cancelledTasks = (Race.losers gs).map Race.Gateway.name := by
  constructor
  · by_cases hs : s.virtual_payment_tasks = [] <;>
      simp [Race.cancel_transaction, hs]
  · cases hm : (gs.map Race.completionTick).min? with
    | none => simp [Race.start_transaction, hm] at h
    | some t =>
        have htick : Race.minTickOf gs = t := by simp [Race.minTickOf, hm]
        simp [Race.start_transaction, hm] at h
        simp [← h, Race.losers, htick]

/-- C6 (witness): the amended statement at concrete inputs — double
cancellation of a state with two outstanding tasks equals single
cancellation, and the concrete race's cancelled tasks are its losers. -/
theorem C6_cancel_requested_only_witness :
    Race.cancel_transaction (Race.cancel_transaction
        (Race.VPState.mk ["t1", "t2"] "processing" [])) =
      Race.cancel_transaction (Race.VPState.mk ["t1", "t2"] "processing" [])
    ∧ (Race.RaceReturn.mk (some "S") ["S"] ["P"]).cancelledTasks =
        (Race.losers [Race.gwSuccessS, Race.gwPendingP]).map Race.Gateway.name :=
  C6_cancel_requested_only (Race.VPState.mk ["t1", "t2"] "processing" [])
    [Race.gwSuccessS, Race.gwPendingP] (Race.RaceReturn.mk (some "S") ["S"] ["P"]) rfl

/-- C8: replaying a log whose lines are each either malformed (not
decodable as JSON) or a valid record: the replay scans in order, returns
exactly the valid records of the requested type, and skips every malformed
line with a warning instead of failing — the result is the same as
replaying the log with the malformed lines removed, so recovery
reconstructs the same state. -/
theorem C8_replay_skips_malformed {α : Type} [DecidableEq α] (want : String)
    (lines : List (Store.LogLine α)) (h : lines.all Store.lineOk = true) :
    Store.replay_events want lines = .ok (Store.validMatches want lines)
    ∧ Store.replay_events want lines =
        Store.replay_events want
          (lines.filter fun l => l ≠ Store.LogLine.notJson) := by
  induction lines with
  | nil => exact ⟨rfl, rfl⟩
  | cons l rest ih =>
      simp only [List.all_cons, Bool.and_eq_true] at h
      obtain ⟨hl, hrest⟩ := h
      obtain ⟨ih1, ih2⟩ := ih hrest
      cases l with
      | notJson =>
          constructor
          · simpa [Store.replay_events, Store.validMatches] using ih1
          · simpa [Store.replay_events, List.filter] using ih2
      | nonObject => simp [Store.lineOk] at hl
      | object ty parsed =>
          cases parsed with
          | none => simp [Store.lineOk] at hl
          | some a =>
              by_cases hty : ty = some want
              · constructor
                · simp [Store.replay_events, hty, ih1, Store.validMatches, Except.map]
                · simp [Store.replay_events, hty, ih2, List.filter]
              · constructor
                · simpa [Store.replay_events, hty, Store.validMatches] using ih1
                · simpa [Store.replay_events, hty, List.filter] using ih2

/-- C8 (witness): a concrete log with one malformed line among valid
records replays to exactly the matching valid records, identically to the
cleaned log. -/
theorem C8_replay_skips_malformed_witness :
    Store.replay_events "transaction"
        [Store.LogLine.object (some "transaction") (some (5 : Int)),
          Store.LogLine.notJson,
          Store.LogLine.object (some "snapshot") (some 7),
          Store.LogLine.object (some "transaction") (some 9)] =
      .ok [5, 9]
    ∧ Store.replay_events "transaction"
        [Store.LogLine.object (some "transaction") (some (5 : Int)),
          Store.LogLine.notJson,
          Store.LogLine.object (some "snapshot") (some 7),
          Store.LogLine.object (some "transaction") (some 9)] =
      Store.replay_events "transaction"
        ([Store.LogLine.object (some "transaction") (some (5 : Int)),
          Store.LogLine.notJson,
          Store.LogLine.object (some "snapshot") (some 7),
          Store.LogLine.object (some "transaction") (some 9)].filter
            fun l => l ≠ Store.LogLine.notJson) :=
  ⟨(C8_replay_skips_malformed "transaction" _ (by decide)).1.trans (by rfl),
    (C8_replay_skips_malformed "transaction" _ (by decide)).2⟩

/-- C10 (witness): resetting from Error with 500 in escrow and a selected
product ends idle with escrow 0, no selection, and the same (empty) log. -/
theorem C10_reset_discards_escrow_witness :
    Core.fire (Core.VMCCore.mk MState.error 500 (some ⟨125⟩) [⟨125⟩] [])
        Trigger.reset_state =
      .ok (Core.VMCCore.mk MState.idle 0 none [⟨125⟩] [], true) :=
  C10_reset_discards_escrow (Core.VMCCore.mk MState.error 500 (some ⟨125⟩) [⟨125⟩] []) rfl

end IceColder
